/-
  Verification of the TCL Home Assistant cloud-client against its
  natural-language specification.

  The Python sources are shallowly embedded:
    * `hashlib.md5(...).hexdigest()` is embedded as a full executable MD5
      over byte lists (Nat values < 256), with words as Nat values reduced
      mod 2^32;
    * Python `datetime` instants are embedded as seconds since
      0001-01-01T00:00:00 (so `datetime.min = 0`); datetime arithmetic that
      can raise `OverflowError` is embedded in `Except`;
    * the mutable API-client objects are embedded as explicit state records,
      every method returning its outcome (`Except`), the post-state (Python
      attribute mutations survive a raised exception) and a trace of the
      network calls it performed;
    * HTTP responses are supplied by an explicit environment record, already
      parsed into the JSON shapes the code reads, with absent fields as
      `Option.none`.
-/
import Mathlib

/-! # MD5 (embedding of `hashlib.md5(...).hexdigest()` over UTF-8 bytes) -/

/-- The 64 MD5 round constants `T[i] = floor(2^32 * |sin(i+1)|)`. -/
def md5K : List Nat :=
  [0xd76aa478, 0xe8c7b756, 0x242070db, 0xc1bdceee,
   0xf57c0faf, 0x4787c62a, 0xa8304613, 0xfd469501,
   0x698098d8, 0x8b44f7af, 0xffff5bb1, 0x895cd7be,
   0x6b901122, 0xfd987193, 0xa679438e, 0x49b40821,
   0xf61e2562, 0xc040b340, 0x265e5a51, 0xe9b6c7aa,
   0xd62f105d, 0x02441453, 0xd8a1e681, 0xe7d3fbc8,
   0x21e1cde6, 0xc33707d6, 0xf4d50d87, 0x455a14ed,
   0xa9e3e905, 0xfcefa3f8, 0x676f02d9, 0x8d2a4c8a,
   0xfffa3942, 0x8771f681, 0x6d9d6122, 0xfde5380c,
   0xa4beea44, 0x4bdecfa9, 0xf6bb4b60, 0xbebfbc70,
   0x289b7ec6, 0xeaa127fa, 0xd4ef3085, 0x04881d05,
   0xd9d4d039, 0xe6db99e5, 0x1fa27cf8, 0xc4ac5665,
   0xf4292244, 0x432aff97, 0xab9423a7, 0xfc93a039,
   0x655b59c3, 0x8f0ccc92, 0xffeff47d, 0x85845dd1,
   0x6fa87e4f, 0xfe2ce6e0, 0xa3014314, 0x4e0811a1,
   0xf7537e82, 0xbd3af235, 0x2ad7d2bb, 0xeb86d391]

/-- The per-round left-rotation amounts. -/
def md5S : List Nat :=
  [7, 12, 17, 22, 7, 12, 17, 22, 7, 12, 17, 22, 7, 12, 17, 22,
   5,  9, 14, 20, 5,  9, 14, 20, 5,  9, 14, 20, 5,  9, 14, 20,
   4, 11, 16, 23, 4, 11, 16, 23, 4, 11, 16, 23, 4, 11, 16, 23,
   6, 10, 15, 21, 6, 10, 15, 21, 6, 10, 15, 21, 6, 10, 15, 21]

/-- 32-bit left rotation on a word already reduced mod `2^32`. -/
def rotl32 (x n : Nat) : Nat :=
  ((x * 2 ^ n) % 4294967296 + x / 2 ^ (32 - n)) % 4294967296

/-- 32-bit bitwise complement (via xor with all-ones). -/
def not32 (x : Nat) : Nat := Nat.xor x 4294967295

/-- The nonlinear MD5 round function for round `i` applied to `b c d`. -/
def md5F (i b c d : Nat) : Nat :=
  if i < 16 then Nat.lor (Nat.land b c) (Nat.land (not32 b) d)
  else if i < 32 then Nat.lor (Nat.land d b) (Nat.land (not32 d) c)
  else if i < 48 then Nat.xor b (Nat.xor c d)
  else Nat.xor c (Nat.lor b (not32 d))

/-- The message-word index used by round `i`. -/
def md5G (i : Nat) : Nat :=
  if i < 16 then i
  else if i < 32 then (5 * i + 1) % 16
  else if i < 48 then (3 * i + 5) % 16
  else (7 * i) % 16

/-- One MD5 round: state is `(a, b, c, d)`, `m` the 16 message words. -/
def md5Round (m : List Nat) (st : Nat × Nat × Nat × Nat) (i : Nat) :
    Nat × Nat × Nat × Nat :=
  let (a, b, c, d) := st
  let f := (md5F i b c d + a + md5K.getD i 0 + m.getD (md5G i) 0) % 4294967296
  (d, (b + rotl32 f (md5S.getD i 0)) % 4294967296, b, c)

/-- Process one 64-byte block (given as 16 little-endian words) into the
    running state. -/
def md5Block (st : Nat × Nat × Nat × Nat) (m : List Nat) :
    Nat × Nat × Nat × Nat :=
  let (a0, b0, c0, d0) := st
  let (a, b, c, d) := (List.range 64).foldl (md5Round m) (a0, b0, c0, d0)
  ((a0 + a) % 4294967296, (b0 + b) % 4294967296,
   (c0 + c) % 4294967296, (d0 + d) % 4294967296)

/-- MD5 padding: append `0x80`, zero-fill to 56 mod 64, then the bit length
    as a 64-bit little-endian quantity. -/
def md5Pad (msg : List Nat) : List Nat :=
  let len := msg.length
  let zeros := (119 - len % 64) % 64
  let bitLen := (8 * len) % 2 ^ 64
  msg ++ [0x80] ++ List.replicate zeros 0 ++
    (List.range 8).map (fun i => bitLen / 256 ^ i % 256)

/-- Split the padded message into 16-word little-endian blocks and fold the
    compression function; the result is the four final 32-bit words. -/
def md5Words (msg : List Nat) : Nat × Nat × Nat × Nat :=
  let padded := md5Pad msg
  let nBlocks := padded.length / 64
  let block := fun (k : Nat) =>
    (List.range 16).map (fun j =>
      (List.range 4).foldr
        (fun b acc => acc * 256 + padded.getD (64 * k + 4 * j + b) 0) 0)
  (List.range nBlocks).foldl (fun st k => md5Block st (block k))
    (0x67452301, 0xefcdab89, 0x98badcfe, 0x10325476)

/-- The 128-bit MD5 digest as a single natural number, assembled so that
    byte `i` of the hex digest is `md5Nat msg / 256^i % 256`. -/
def md5Nat (msg : List Nat) : Nat :=
  let (a, b, c, d) := md5Words msg
  a % 4294967296 + 2 ^ 32 * (b % 4294967296) +
    2 ^ 64 * (c % 4294967296) + 2 ^ 96 * (d % 4294967296)

/-- Lowercase hexadecimal digit. -/
def hexDigit (n : Nat) : Char :=
  Char.ofNat (if n < 10 then 48 + n else 87 + n)

/-- The lowercase 32-character hex digest, byte by byte. -/
def md5Hex (msg : List Nat) : String :=
  String.mk (((List.range 16).map (fun i =>
    let b := md5Nat msg / 256 ^ i % 256
    [hexDigit (b / 16), hexDigit (b % 16)])).flatten)

/-- UTF-8 encoding of a single Unicode code point. -/
def utf8Bytes (c : Nat) : List Nat :=
  if c < 0x80 then [c]
  else if c < 0x800 then [0xc0 + c / 64, 0x80 + c % 64]
  else if c < 0x10000 then
    [0xe0 + c / 4096, 0x80 + c / 64 % 64, 0x80 + c % 64]
  else
    [0xf0 + c / 262144, 0x80 + c / 4096 % 64, 0x80 + c / 64 % 64,
     0x80 + c % 64]

/-- UTF-8 byte sequence of a string (embedding Python `s.encode("utf-8")`). -/
def strBytes (s : String) : List Nat :=
  (s.data.map (fun c => utf8Bytes c.toNat)).flatten

/-- Embedding of the repeated source helper
    `calculate_md5_hash_bytes(input_string)`:
    hex MD5 of the UTF-8 encoding of the string. -/
def calculate_md5_hash_bytes (s : String) : String :=
  md5Hex (strBytes s)

/-- The legacy request signature computed in `async_get_devices`
    (src/api.py) and `get_devices` (tcl_ac/api.py):
    `sign = MD5hex(timestamp + nonce + saas_token)`. -/
def signLegacy (timestamp nonce saasToken : String) : String :=
  calculate_md5_hash_bytes (timestamp ++ nonce ++ saasToken)

example : calculate_md5_hash_bytes "" = "d41d8cd98f00b204e9800998ecf8427e" := by
  decide

example : calculate_md5_hash_bytes "abc" =
    "900150983cd24fb0d6963f7d28e17f72" := by decide

/-! # Python `datetime` model

Instants are seconds since 0001-01-01T00:00:00, so `datetime.min = 0`.
`datetime - timedelta` raises `OverflowError` when the result would fall
below `datetime.min`; that operation is embedded in `Except`.  The host
clock is modelled as UTC (offset 0), matching the code's use of
`datetime.datetime.utcnow()`. -/

/-- Python exception values surfaced by the embedded methods. -/
inductive PyErr where
  | apiAuthError
  | apiConnectionError
  | tclApiAuthError (msg : String)
  | tclApiError (msg : String)
  | keyError (key : String)
  | typeError
  | overflowError
  deriving DecidableEq, Repr

deriving instance DecidableEq for Except

/-- Seconds from 0001-01-01 to the UNIX epoch 1970-01-01. -/
def dtEpoch : Nat := 62135596800

/-- Seconds at `datetime.max` (9999-12-31T23:59:59). -/
def dtMax : Nat := 3652059 * 86400 - 1

/-- Embedding of `datetime - timedelta(seconds := secs)`: raises
    `OverflowError` when the result would precede `datetime.min`. -/
def dtSub (d secs : Nat) : Except PyErr Nat :=
  if secs ≤ d then .ok (d - secs) else .error .overflowError

/-- Decimal digit value of a character, if it is a digit. -/
def digitVal (c : Char) : Option Nat :=
  if c.isDigit then some (c.toNat - 48) else none

/-- Proleptic-Gregorian leap year rule (as in Python `datetime`). -/
def isLeap (y : Nat) : Bool :=
  (y % 4 == 0 && y % 100 != 0) || y % 400 == 0

/-- Month lengths of year `y`. -/
def monthLengths (y : Nat) : List Nat :=
  [31, if isLeap y then 29 else 28, 31, 30, 31, 30, 31, 31, 30, 31, 30, 31]

/-- Days in the calendar before year `y` (year 1 has none before it). -/
def daysBeforeYear (y : Nat) : Nat :=
  365 * (y - 1) + (y - 1) / 4 - (y - 1) / 100 + (y - 1) / 400

/-- Seconds since 0001-01-01T00:00:00 of the given UTC calendar time. -/
def dtOfYmdHms (y mo d h mi s : Nat) : Nat :=
  (daysBeforeYear y + ((monthLengths y).take (mo - 1)).sum + (d - 1)) * 86400
    + h * 3600 + mi * 60 + s

/-- Embedding of
    `datetime.strptime(expiration, "%Y-%m-%dT%H:%M:%SZ")`:
    `none` when the string does not match the format or a field is out of
    range (Python raises `ValueError` there). -/
def strptime_iso (s : String) : Option Nat :=
  let cs := s.data
  let ch := fun (i : Nat) => cs.getD i '?'
  let two := fun (i : Nat) =>
    match digitVal (ch i), digitVal (ch (i + 1)) with
    | some x, some y => some (10 * x + y)
    | _, _ => none
  if cs.length == 20 && ch 4 == '-' && ch 7 == '-' && ch 10 == 'T' &&
      ch 13 == ':' && ch 16 == ':' && ch 19 == 'Z' then
    match two 0, two 2, two 5, two 8, two 11, two 14, two 17 with
    | some yh, some yl, some mo, some dd, some h, some mi, some ss =>
      let y := 100 * yh + yl
      if 1 ≤ y && 1 ≤ mo && mo ≤ 12 && 1 ≤ dd &&
          dd ≤ (monthLengths y).getD (mo - 1) 0 &&
          h ≤ 23 && mi ≤ 59 && ss ≤ 59 then
        some (dtOfYmdHms y mo dd h mi ss)
      else none
    | _, _, _, _, _, _, _ => none
  else none

/-- Embedding of `datetime.fromtimestamp(n)` (host clock UTC): `none` when
    the instant falls outside `datetime`'s representable range (Python
    raises there). -/
def fromtimestamp (n : Int) : Option Nat :=
  let v : Int := (dtEpoch : Int) + n
  if 0 ≤ v ∧ v ≤ (dtMax : Int) then some v.toNat else none

/-! # Embedding of `src/custom_components/tcl/api.py` (class `TCLAPI`) -/

namespace Tcl

/-- The raw value found in the `Expiration` field of the stored AWS
    credential dict: a string, a number (embedded as integer seconds), or
    any other JSON value. -/
inductive ExpValue where
  | str (s : String)
  | num (n : Int)
  | other
  deriving DecidableEq, Repr

/-- The `Credentials` dict from the Cognito response as stored in
    `self._aws_credentials`; absent keys are `none`. -/
structure AwsDict where
  AccessKeyId : Option String
  SecretKey : Option String
  SessionToken : Option String
  Expiration : Option ExpValue
  deriving DecidableEq, Repr

/-- Python dict truthiness for the credential dict: falsy iff empty. -/
def AwsDict.isEmptyDict (d : AwsDict) : Bool :=
  d.AccessKeyId.isNone && d.SecretKey.isNone &&
    d.SessionToken.isNone && d.Expiration.isNone

/-- Python truthiness of an optional string attribute: `None` and the
    empty string are falsy (`not self._access_token` is `True` for both). -/
def truthy (o : Option String) : Bool :=
  match o with
  | none => false
  | some s => !(s == "")

/-- The mutable attribute state of a `TCLAPI` object (the unused
    `_refresh_token` attribute is omitted). -/
structure State where
  access_token : Option String
  aws_credentials : Option AwsDict
  deriving DecidableEq, Repr

/-- One network round-trip performed by the client. -/
inductive NetCall where
  | loginCall
  | refreshCall
  | cognitoCall (identityId : String)
  | thingsCall
  | controlCall
  deriving DecidableEq, Repr

/-- Parsed JSON of the account-login response; `status` is the HTTP code. -/
structure LoginResp where
  status : Nat
  token : Option String
  user_username : Option String
  deriving DecidableEq, Repr

/-- The `data` object of the refresh-tokens response. -/
structure RefreshData where
  saasToken : Option String
  cognitoToken : Option String
  cognitoId : Option String
  deriving DecidableEq, Repr

/-- Parsed JSON of the refresh-tokens response. -/
structure RefreshResp where
  status : Nat
  data : Option RefreshData
  deriving DecidableEq, Repr

/-- Parsed JSON of the Cognito GetCredentialsForIdentity response. -/
structure CognitoResp where
  status : Nat
  credentials : Option AwsDict
  deriving DecidableEq, Repr

/-- Parsed JSON of the get-things response (device entries opaque). -/
structure ThingsResp where
  status : Nat
  data : Option (List String)
  deriving DecidableEq, Repr

/-- HTTP response of the shadow-update endpoint. -/
structure CtrlResp where
  status : Nat
  deriving DecidableEq, Repr

/-- The environment of server responses one client call can observe. -/
structure Env where
  login : LoginResp
  refresh : RefreshResp
  cognito : CognitoResp
  things : ThingsResp
  thingsFallback : ThingsResp
  control : CtrlResp
  deriving DecidableEq, Repr

/-- Embedding of `TCLAPI._parse_expiration`: ISO-8601 strings via
    `strptime`, numbers via `fromtimestamp`, anything else (or any parse
    failure, which Python catches) becomes `datetime.min = 0`. -/
def _parse_expiration (e : ExpValue) : Nat :=
  match e with
  | .str s => (strptime_iso s).getD 0
  | .num n => (fromtimestamp n).getD 0
  | .other => 0

/-- Embedding of `TCLAPI.authenticate` (lines 31-113): the three-stage
    pipeline.  HTTP errors become `APIAuthError` (the method's
    `except requests.exceptions.RequestException` clause); `KeyError`s from
    subscripting the parsed responses are not caught and propagate raw.
    Attribute writes that happened before a raise survive in the
    post-state. -/
def authenticate (env : Env) (st : State) :
    Except PyErr Unit × State × List NetCall :=
  if 400 ≤ env.login.status then
    (.error .apiAuthError, st, [.loginCall])
  else
    match env.login.user_username, env.login.token with
    | none, _ => (.error (.keyError "username"), st, [.loginCall])
    | some _, none => (.error (.keyError "token"), st, [.loginCall])
    | some _, some _ =>
      if 400 ≤ env.refresh.status then
        (.error .apiAuthError, st, [.loginCall, .refreshCall])
      else
        match env.refresh.data with
        | none => (.error (.keyError "data"), st, [.loginCall, .refreshCall])
        | some rd =>
          match rd.saasToken with
          | none =>
            (.error (.keyError "saasToken"), st, [.loginCall, .refreshCall])
          | some saas =>
            let st1 : State := { st with access_token := some saas }
            match rd.cognitoId with
            | none =>
              (.error (.keyError "cognitoId"), st1, [.loginCall, .refreshCall])
            | some cid =>
              match rd.cognitoToken with
              | none =>
                (.error (.keyError "cognitoToken"), st1,
                  [.loginCall, .refreshCall])
              | some _ =>
                if 400 ≤ env.cognito.status then
                  (.error .apiAuthError, st1,
                    [.loginCall, .refreshCall, .cognitoCall cid])
                else
                  match env.cognito.credentials with
                  | none =>
                    (.error (.keyError "Credentials"), st1,
                      [.loginCall, .refreshCall, .cognitoCall cid])
                  | some creds =>
                    let st2 : State :=
                      { st1 with aws_credentials := some creds }
                    match creds.AccessKeyId with
                    | none =>
                      (.error (.keyError "AccessKeyId"), st2,
                        [.loginCall, .refreshCall, .cognitoCall cid])
                    | some _ =>
                      match creds.Expiration with
                      | none =>
                        (.error (.keyError "Expiration"), st2,
                          [.loginCall, .refreshCall, .cognitoCall cid])
                      | some _ =>
                        (.ok (), st2,
                          [.loginCall, .refreshCall, .cognitoCall cid])

/-- The staleness condition checked at line 140 of
    `_validate_credentials`:
    `expiration - timedelta(minutes=5) < utcnow()`.  The subtraction is
    performed first and can raise `OverflowError`. -/
def refreshNeeded (expiration now : Nat) : Except PyErr Bool :=
  (dtSub expiration 300).map (fun cutoff => decide (cutoff < now))

/-- Embedding of `TCLAPI._validate_credentials` (lines 130-148):
    re-authenticate when the stored access token is falsy (`None` or the
    empty string, per Python's `if not self._access_token:`); when a
    truthy AWS credential dict is stored (`if self._aws_credentials:` —
    `None` and the empty dict are falsy and skip the block silently),
    parse its expiry and re-authenticate when it is within the 5-minute
    buffer of `now`. -/
def _validate_credentials (env : Env) (st : State) (now : Nat) :
    Except PyErr Unit × State × List NetCall :=
  if !(truthy st.access_token) then authenticate env st
  else
    match st.aws_credentials with
    | none => (.ok (), st, [])
    | some d =>
      if d.isEmptyDict then (.ok (), st, [])
      else
        match d.Expiration with
        | none => (.error (.keyError "Expiration"), st, [])
        | some ev =>
          match refreshNeeded (_parse_expiration ev) now with
          | .error e => (.error e, st, [])
          | .ok true => authenticate env st
          | .ok false => (.ok (), st, [])

/-- Embedding of `TCLAPI.get_devices` (lines 150-248).  After
    `_validate_credentials`, the method eagerly subscripts
    `self._aws_credentials` (a `TypeError` when it is `None`, a `KeyError`
    when a key is absent), signs the request with `signLegacy`, performs
    the GET (retrying once with a seconds timestamp on HTTP 403), and
    returns the `data` field.  HTTP errors become `APIConnectionError`;
    `TypeError` / `KeyError` propagate raw. -/
def get_devices (env : Env) (st : State) (now : Nat)
    (timestamp nonce : String) :
    Except PyErr (List String) × State × List NetCall :=
  match _validate_credentials env st now with
  | (.error e, st', calls) => (.error e, st', calls)
  | (.ok _, st', calls) =>
    match st'.aws_credentials with
    | none => (.error .typeError, st', calls)
    | some d =>
      let debugCheck : Except PyErr Unit :=
        if d.isEmptyDict then .ok () else
          match d.AccessKeyId, d.Expiration, d.SessionToken with
          | none, _, _ => .error (.keyError "AccessKeyId")
          | some _, none, _ => .error (.keyError "Expiration")
          | some _, some _, none => .error (.keyError "SessionToken")
          | some _, some _, some _ => .ok ()
      match debugCheck with
      | .error e => (.error e, st', calls)
      | .ok _ =>
        let _sign := signLegacy timestamp nonce (st'.access_token.getD "")
        match d.Expiration with
        | none => (.error (.keyError "Expiration"), st', calls)
        | some ev =>
          let _expiration := _parse_expiration ev
          match d.SessionToken with
          | none => (.error (.keyError "SessionToken"), st', calls)
          | some _ =>
            if 400 ≤ env.things.status then
              if env.things.status = 403 then
                if 400 ≤ env.thingsFallback.status then
                  (.error .apiConnectionError, st',
                    calls ++ [.thingsCall, .thingsCall])
                else
                  (.ok (env.thingsFallback.data.getD []), st',
                    calls ++ [.thingsCall, .thingsCall])
              else
                (.error .apiConnectionError, st', calls ++ [.thingsCall])
            else
              (.ok (env.things.data.getD []), st', calls ++ [.thingsCall])

/-- Embedding of `TCLAPI.control_device` (lines 250-275): authenticate
    only when the stored access token is falsy (`None` or empty, per
    `if not self._access_token:`), then POST the shadow update; all HTTP
    failures (401/403 included) become `APIConnectionError`; a missing
    credential dict gives a raw `TypeError`. -/
def control_device (env : Env) (st : State) :
    Except PyErr Bool × State × List NetCall :=
  let step :=
    if !(truthy st.access_token) then authenticate env st
    else (.ok (), st, [])
  match step with
  | (.error e, st', calls) => (.error e, st', calls)
  | (.ok _, st', calls) =>
    match st'.aws_credentials with
    | none => (.error .typeError, st', calls)
    | some d =>
      match d.SessionToken with
      | none => (.error (.keyError "SessionToken"), st', calls)
      | some _ =>
        if 400 ≤ env.control.status then
          (.error .apiConnectionError, st', calls ++ [.controlCall])
        else (.ok true, st', calls ++ [.controlCall])

end Tcl

/-! # Embedding of `src/api.py` (class `TclApi`) -/

/-- The identity id hardcoded in `const.py` and always submitted by
    `src/api.py` and `tcl_ac/api.py` to the Cognito credentials call. -/
def HARDCODED_IDENTITY_ID : String :=
  "eu-central-1:61e8f839-2d72-c035-a2bf-7ef50a856ddd"

namespace Src

/-- Python string truthiness of an optional string attribute: `None` and
    the empty string are falsy. -/
def truthy (o : Option String) : Bool :=
  match o with
  | none => false
  | some s => !(s == "")

/-- The `user` object of the account-login response. -/
structure UserObj where
  countryAbbr : Option String
  username : Option String
  deriving DecidableEq, Repr

/-- Parsed JSON of the account-login response. -/
structure LoginResp where
  errorcode : Option String
  msg : Option String
  token : Option String
  user : Option UserObj
  deriving DecidableEq, Repr

/-- The `data` object of the refresh-tokens response. -/
structure RefreshData where
  cognitoToken : Option String
  saasToken : Option String
  cognitoId : Option String
  deriving DecidableEq, Repr

/-- Parsed JSON of the refresh-tokens response. -/
structure RefreshResp where
  errorcode : Option String
  msg : Option String
  data : Option RefreshData
  deriving DecidableEq, Repr

/-- The claims obtained by decoding the Cognito JWT without signature
    verification. -/
structure JwtClaims where
  exp : Option Int
  deriving DecidableEq, Repr

/-- Parsed JSON of the Cognito GetCredentialsForIdentity response. -/
structure CognitoResp where
  credentials : Option Tcl.AwsDict
  deriving DecidableEq, Repr

/-- Parsed JSON of the get-things response (device entries opaque). -/
structure ThingsResp where
  errorcode : Option String
  msg : Option String
  data : Option (List String)
  deriving DecidableEq, Repr

/-- HTTP response of the shadow-update endpoint. -/
structure CtrlResp where
  status : Nat
  body : String
  deriving DecidableEq, Repr

/-- The environment of server responses and ambient values one client
    call can observe; `control` maps the attempt index to the response the
    stub endpoint would return for that attempt. -/
structure Env where
  login : LoginResp
  refresh : RefreshResp
  jwtDecoded : Except Unit JwtClaims
  nowEpoch : Int
  cognito : CognitoResp
  things : ThingsResp
  control : Nat → CtrlResp

/-- The mutable attribute state of a `TclApi` object. -/
structure State where
  sso_token : Option String
  country_abbr : Option String
  user_id : Option String
  saas_token : Option String
  cognito_token : Option String
  aws_credentials : Option Tcl.AwsDict
  deriving DecidableEq, Repr

/-- The fully empty state a freshly constructed client starts in. -/
def emptyState : State := ⟨none, none, none, none, none, none⟩

/-- Embedding of `TclApi.async_get_aws_credentials` (lines 193-229,
    stage 3).  The request body's `IdentityId` is always
    `HARDCODED_IDENTITY_ID`; the third component reports the identity id
    submitted (`none` when the call never reached the endpoint).  Note the
    store's `_aws_credentials` is overwritten *before* the completeness
    check. -/
def async_get_aws_credentials (env : Env) (st : State) :
    Except PyErr Unit × State × Option String :=
  if !truthy st.cognito_token then
    (.error (.tclApiAuthError
        "Cognito token not available for AWS credential retrieval."),
      st, none)
  else
    match env.cognito.credentials with
    | none =>
      (.error (.tclApiError "Failed to retrieve AWS credentials."),
        st, some HARDCODED_IDENTITY_ID)
    | some creds =>
      let st1 : State := { st with aws_credentials := some creds }
      if creds.AccessKeyId.isSome && creds.SecretKey.isSome &&
          creds.SessionToken.isSome then
        (.ok (), st1, some HARDCODED_IDENTITY_ID)
      else
        (.error (.tclApiError "Incomplete AWS credentials received."),
          st1, some HARDCODED_IDENTITY_ID)

/-- Embedding of `TclApi.async_refresh_tokens` (lines 142-191, stage 2);
    on success it tail-calls stage 3. -/
def async_refresh_tokens (env : Env) (st : State) :
    Except PyErr Unit × State × Option String :=
  if !truthy st.sso_token || !truthy st.user_id then
    (.error (.tclApiAuthError
        "SSO token or User ID not available for token refresh."), st, none)
  else
    let r := env.refresh
    if r.errorcode != some "0" then
      (.error (.tclApiAuthError ("Token refresh failed: " ++
          r.msg.getD "Unknown token refresh error")), st, none)
    else
      let d := r.data.getD ⟨none, none, none⟩
      let st1 : State :=
        { st with cognito_token := d.cognitoToken, saas_token := d.saasToken }
      if !truthy st1.cognito_token || !truthy st1.saas_token then
        (.error (.tclApiAuthError "Token refresh response incomplete."),
          st1, none)
      else
        match env.jwtDecoded with
        | .error _ =>
          (.error (.tclApiAuthError "Invalid Cognito token"), st1, none)
        | .ok claims =>
          match claims.exp with
          | none => (.error (.keyError "exp"), st1, none)
          | some e =>
            if env.nowEpoch > e then
              (.error (.tclApiAuthError "Refreshed Cognito token is expired."),
                st1, none)
            else async_get_aws_credentials env st1

/-- Embedding of `TclApi.async_do_account_auth` (lines 100-140, stage 1);
    on success it tail-calls stage 2.  A non-success vendor status raises
    before any attribute is written; the missing-field check happens
    *after* the three attributes are written. -/
def async_do_account_auth (env : Env) (st : State) :
    Except PyErr Unit × State × Option String :=
  let r := env.login
  if r.errorcode != some "0" then
    (.error (.tclApiAuthError ("Account authentication failed: " ++
        r.msg.getD "Unknown authentication error")), st, none)
  else
    let st1 : State := { st with
      sso_token := r.token,
      country_abbr := r.user.bind (fun u => u.countryAbbr),
      user_id := r.user.bind (fun u => u.username) }
    if !(truthy st1.sso_token && truthy st1.country_abbr &&
        truthy st1.user_id) then
      (.error (.tclApiAuthError "Authentication response incomplete."),
        st1, none)
    else async_refresh_tokens env st1

/-- Embedding of `TclApi.async_get_devices` (lines 231-271): re-run the
    pipeline only when the SaaS token or country code is missing, sign
    with `signLegacy`, then parse the listing response: non-success
    `errorcode` raises `TclApiError` carrying the vendor `msg`; otherwise
    the `data` list is returned in server order. -/
def async_get_devices (env : Env) (st : State) (timestamp nonce : String) :
    Except PyErr (List String) × State :=
  let step : Except PyErr Unit × State :=
    if !truthy st.saas_token || !truthy st.country_abbr then
      let (o, st1, _) := async_do_account_auth env st
      match o with
      | .error e => (.error e, st1)
      | .ok _ =>
        if !truthy st1.saas_token || !truthy st1.country_abbr then
          (.error (.tclApiAuthError
              "SaaS token or country code still not available after re-auth."),
            st1)
        else (.ok (), st1)
    else (.ok (), st)
  match step with
  | (.error e, st1) => (.error e, st1)
  | (.ok _, st1) =>
    let _sign := signLegacy timestamp nonce (st1.saas_token.getD "")
    let r := env.things
    if r.errorcode != some "0" then
      (.error (.tclApiError ("Failed to get devices: " ++
          r.msg.getD "Unknown error fetching devices")), st1)
    else (.ok (r.data.getD []), st1)

/-- Embedding of `TclApi.async_control_device` (lines 273-343): re-run the
    pipeline only when the stored AWS credential record is falsy
    (`if not self._aws_credentials:` — both `None` and an empty dict),
    then POST the shadow update exactly once; HTTP 401/403 raises
    `TclApiAuthError`, any other 4xx/5xx raises `TclApiError` carrying the
    response body.  The result also reports the number of HTTP control
    attempts made and whether the pre-call re-authentication ran. -/
def async_control_device (env : Env) (st : State) :
    Except PyErr String × State × Nat × Bool :=
  let reauth : Except PyErr Tcl.AwsDict × State × Bool :=
    let (o, st1, _) := async_do_account_auth env st
    match o with
    | .error e => (Except.error e, st1, true)
    | .ok _ =>
      match st1.aws_credentials with
      | none =>
        (Except.error (PyErr.tclApiAuthError
            "AWS credentials still not available after re-auth."),
          st1, true)
      | some d =>
        if d.isEmptyDict then
          (Except.error (PyErr.tclApiAuthError
              "AWS credentials still not available after re-auth."),
            st1, true)
        else (Except.ok d, st1, true)
  let pre : Except PyErr Tcl.AwsDict × State × Bool :=
    match st.aws_credentials with
    | some d => if d.isEmptyDict then reauth else (Except.ok d, st, false)
    | none => reauth
  match pre with
  | (.error e, st1, reauth) => (.error e, st1, 0, reauth)
  | (.ok d, st1, reauth) =>
    match d.AccessKeyId, d.SecretKey, d.SessionToken with
    | none, _, _ =>
      (.error (.tclApiError "Device control error: KeyError"), st1, 0, reauth)
    | some _, none, _ =>
      (.error (.tclApiError "Device control error: KeyError"), st1, 0, reauth)
    | some _, some _, none =>
      (.error (.tclApiError "Device control error: KeyError"), st1, 0, reauth)
    | some _, some _, some _ =>
      let r := env.control 0
      if r.status == 401 || r.status == 403 then
        (.error (.tclApiAuthError ("Device control auth failed: " ++ r.body)),
          st1, 1, reauth)
      else if 400 ≤ r.status then
        (.error (.tclApiError ("Device control API error: " ++ r.body)),
          st1, 1, reauth)
      else (.ok r.body, st1, 1, reauth)

end Src

/-! # Helper lemmas and sample data -/

/-- The MD5 digest fits in 128 bits. -/
theorem md5Nat_lt (msg : List Nat) : md5Nat msg < 2 ^ 128 := by
  unfold md5Nat
  rcases h : md5Words msg with ⟨a, b, c, d⟩
  simp only [h]
  have ha := Nat.mod_lt a (y := 4294967296) (by norm_num)
  have hb := Nat.mod_lt b (y := 4294967296) (by norm_num)
  have hc := Nat.mod_lt c (y := 4294967296) (by norm_num)
  have hd := Nat.mod_lt d (y := 4294967296) (by norm_num)
  have e32 : (2 : Nat) ^ 32 = 4294967296 := by norm_num
  have e64 : (2 : Nat) ^ 64 = 4294967296 * 4294967296 := by norm_num
  have e96 : (2 : Nat) ^ 96 = 4294967296 * 4294967296 * 4294967296 := by
    norm_num
  have e128 : (2 : Nat) ^ 128 =
      4294967296 * 4294967296 * 4294967296 * 4294967296 := by norm_num
  rw [e32, e64, e96, e128]
  nlinarith [ha, hb, hc, hd]

/-- String concatenation acts as list concatenation on the data. -/
theorem strData_append (s t : String) : (s ++ t).data = s.data ++ t.data := by
  cases s; cases t; rfl

/-- A tcl-client environment of entirely successful server responses,
    used for concrete instantiations. -/
def Tcl.envOK : Tcl.Env :=
  ⟨⟨200, some "tok", some "user"⟩,
   ⟨200, some ⟨some "saas", some "cog", some "cid"⟩⟩,
   ⟨200, some ⟨some "AK", some "SK", some "ST", some (.num 1893823628)⟩⟩,
   ⟨200, some ["d1"]⟩, ⟨200, some []⟩, ⟨200⟩⟩

/-! # Claim C1 -/

/-- C1 counterexample: a reachable state whose cloud credentials are
    absent (`_aws_credentials = None`) but whose account access token is
    set.  The claim demands that the credential-validation operation run
    the full three-stage pipeline on every state with absent or stale
    credentials; the code instead returns without any network call and
    without touching the store. -/
theorem c1_counterexample :
    Tcl._validate_credentials Tcl.envOK ⟨some "tok", none⟩ 1000 =
        (.ok (), ⟨some "tok", none⟩, []) ∧
    (⟨some "tok", none⟩ : Tcl.State).aws_credentials = none := by
  exact ⟨rfl, rfl⟩

/-- C1 (amended): `_validate_credentials` is a no-op (no network call,
    store unchanged) whenever the access token is truthy and the stored
    expiry is strictly beyond the 5-minute buffer, so a second
    consecutive call is also a no-op; when the access token is falsy
    (`None` or empty), or when a truthy stored credential record is
    stale, it re-runs `authenticate`, which always starts with the
    stage-1 login call and on success performs exactly the three stages
    in order (never a stage-3-only refresh); but when the access token is
    truthy and the credential record is absent — or is an empty, falsy
    dict — it does nothing. -/
theorem c1_amended (env : Tcl.Env) (st : Tcl.State) (now : Nat) :
    (∀ d ev, Tcl.truthy st.access_token = true →
      st.aws_credentials = some d → d.Expiration = some ev →
      Tcl.refreshNeeded (Tcl._parse_expiration ev) now = .ok false →
      Tcl._validate_credentials env st now = (.ok (), st, [])) ∧
    (Tcl.truthy st.access_token = false →
      Tcl._validate_credentials env st now = Tcl.authenticate env st) ∧
    (∀ d ev, Tcl.truthy st.access_token = true →
      st.aws_credentials = some d → d.Expiration = some ev →
      Tcl.refreshNeeded (Tcl._parse_expiration ev) now = .ok true →
      Tcl._validate_credentials env st now = Tcl.authenticate env st) ∧
    ((Tcl.authenticate env st).2.2.head? = some .loginCall) ∧
    (∀ u st' tr, Tcl.authenticate env st = (.ok u, st', tr) →
      ∃ cid, tr = [.loginCall, .refreshCall, .cognitoCall cid]) ∧
    (Tcl.truthy st.access_token = true → st.aws_credentials = none →
      Tcl._validate_credentials env st now = (.ok (), st, [])) ∧
    (∀ d, Tcl.truthy st.access_token = true → st.aws_credentials = some d →
      d.isEmptyDict = true →
      Tcl._validate_credentials env st now = (.ok (), st, [])) := by
  refine ⟨?_, ?_, ?_, ?_, ?_, ?_, ?_⟩
  · intro d ev h1 h2 h3 h4
    simp [Tcl._validate_credentials, Tcl.AwsDict.isEmptyDict, h1, h2, h3, h4]
  · intro h
    simp [Tcl._validate_credentials, h]
  · intro d ev h1 h2 h3 h4
    simp [Tcl._validate_credentials, Tcl.AwsDict.isEmptyDict, h1, h2, h3, h4]
  · unfold Tcl.authenticate
    repeat' split
    all_goals simp
  · intro u st' tr h
    unfold Tcl.authenticate at h
    repeat' split at h
    all_goals simp_all
    all_goals exact ⟨_, h.2.symm⟩
  · intro h1 h2
    simp [Tcl._validate_credentials, h1, h2]
  · intro d h1 h2 h3
    simp [Tcl._validate_credentials, h1, h2, h3]

/-- C1 witness: a concrete fresh state (numeric expiry far beyond the
    buffer) on which validation is a no-op. -/
theorem c1_witness :
    Tcl._validate_credentials Tcl.envOK
        ⟨some "tok",
         some ⟨some "AK", some "SK", some "ST", some (.num 1893823628)⟩⟩ 1000 =
      (.ok (),
        ⟨some "tok",
         some ⟨some "AK", some "SK", some "ST", some (.num 1893823628)⟩⟩,
        []) :=
  (c1_amended Tcl.envOK
      ⟨some "tok",
       some ⟨some "AK", some "SK", some "ST", some (.num 1893823628)⟩⟩
      1000).1
    ⟨some "AK", some "SK", some "ST", some (.num 1893823628)⟩
    (.num 1893823628) (by decide) rfl rfl (by decide)

/-! # Claim C2 -/

/-- The spec's freshness predicate exactly as worded:
    `cloudCredentialExpiry - skewMinutes > now`, with the boundary
    (`expiry - now = skew`) counted as stale. -/
def isCloudCredentialFresh_spec (expiry skew now : Int) : Bool :=
  expiry - skew > now

/-- C2 counterexample: at the exact boundary `expiry - now = skew`
    (expiry 1300 s, now 1000 s, skew 300 s) the spec predicate says stale
    (false), but the code's staleness test `expiration - buffer < now`
    reports no refresh needed, i.e. it treats the boundary as fresh. -/
theorem c2_counterexample :
    Tcl.refreshNeeded 1300 1000 = .ok false ∧
    isCloudCredentialFresh_spec 1300 300 1000 = false := by decide

/-- C2 (amended): for expiries at least 5 minutes past `datetime.min`
    the check computes `expiration - 300 < now`; the credentials are
    treated as fresh (no refresh) iff `now ≤ expiration - 300`, so the
    boundary `expiration - now = 300` is treated as fresh, not stale. -/
theorem c2_amended (e now : Nat) (h : 300 ≤ e) :
    Tcl.refreshNeeded e now = .ok (decide (e - 300 < now)) ∧
    (Tcl.refreshNeeded e now = .ok false ↔ now ≤ e - 300) := by
  unfold Tcl.refreshNeeded dtSub
  rw [if_pos h]
  refine ⟨rfl, ?_⟩
  simp only [Except.map]
  constructor
  · intro hq
    have := Except.ok.inj hq
    simpa using of_decide_eq_false this
  · intro hq
    have : decide (e - 300 < now) = false := by simpa using hq
    rw [this]

/-- C2 witness: the boundary instance (expiry 1300 s, now 1000 s)
    evaluated through the amended characterisation. -/
theorem c2_witness :
    Tcl.refreshNeeded 1300 1000 = .ok false ↔ 1000 ≤ 1300 - 300 :=
  (c2_amended 1300 1000 (by decide)).2

/-! # Claim C3 -/

/-- C3 counterexample (negation of the claim's injectivity part): the
    legacy signature is the 128-bit MD5 digest in hex, so it cannot be
    injective on the infinitely many possible nonces: there exist two
    different nonces (with the same timestamp and token) whose signatures
    coincide.  Hence "the signature differs if any one input changes" is
    false of the code. -/
theorem c3_counterexample :
    ¬ ∀ t n k n' : String, n ≠ n' → signLegacy t n k ≠ signLegacy t n' k := by
  intro h
  obtain ⟨x, y, hxy, hfeq⟩ :=
    Finite.exists_ne_map_eq_of_infinite
      (fun m : Nat =>
        (⟨md5Nat (strBytes ("" ++ String.mk (List.replicate m 'a') ++ "")),
          md5Nat_lt _⟩ : Fin (2 ^ 128)))
  have hmd : md5Nat (strBytes ("" ++ String.mk (List.replicate x 'a') ++ ""))
      = md5Nat (strBytes ("" ++ String.mk (List.replicate y 'a') ++ "")) :=
    congrArg Fin.val hfeq
  have hne : String.mk (List.replicate x 'a') ≠
      String.mk (List.replicate y 'a') := by
    intro he
    apply hxy
    have h2 : List.replicate x 'a' = List.replicate y 'a' :=
      congrArg String.data he
    have h3 := congrArg List.length h2
    simpa using h3
  refine h "" (String.mk (List.replicate x 'a')) ""
    (String.mk (List.replicate y 'a')) hne ?_
  unfold signLegacy calculate_md5_hash_bytes md5Hex
  rw [hmd]

/-- C3 (amended): the legacy signature is the lowercase hex MD5 of the
    UTF-8 bytes of `timestamp ++ nonce ++ token` and is deterministic in
    its three inputs; changing exactly one input always changes the
    *signed string* (the concatenation), though equality of the 128-bit
    digests of two different signed strings cannot be excluded. -/
theorem c3_amended :
    (∀ t n k, signLegacy t n k = md5Hex (strBytes (t ++ n ++ k))) ∧
    (∀ t n k t' n' k', t = t' → n = n' → k = k' →
      signLegacy t n k = signLegacy t' n' k') ∧
    (∀ t n k t' : String, t ≠ t' → t ++ n ++ k ≠ t' ++ n ++ k) ∧
    (∀ t n k n' : String, n ≠ n' → t ++ n ++ k ≠ t ++ n' ++ k) ∧
    (∀ t n k k' : String, k ≠ k' → t ++ n ++ k ≠ t ++ n ++ k') := by
  refine ⟨fun t n k => rfl,
    fun t n k t' n' k' h1 h2 h3 => by rw [h1, h2, h3], ?_, ?_, ?_⟩
  · intro t n k t' h he
    apply h
    have hd := congrArg String.data he
    rw [strData_append, strData_append, strData_append, strData_append] at hd
    exact String.ext
      (List.append_cancel_right (List.append_cancel_right hd))
  · intro t n k n' h he
    apply h
    have hd := congrArg String.data he
    rw [strData_append, strData_append, strData_append, strData_append] at hd
    exact String.ext
      (List.append_cancel_left (List.append_cancel_right hd))
  · intro t n k k' h he
    apply h
    have hd := congrArg String.data he
    rw [strData_append, strData_append, strData_append, strData_append] at hd
    exact String.ext (List.append_cancel_left hd)

/-- C3 witness: the deterministic formula and a one-input change of the
    signed string at concrete inputs. -/
theorem c3_witness :
    signLegacy "123" "ab" "tok" = md5Hex (strBytes ("123" ++ "ab" ++ "tok")) ∧
    ("123" ++ "ab" ++ "tok" : String) ≠ "123" ++ "xy" ++ "tok" :=
  ⟨c3_amended.1 "123" "ab" "tok",
   c3_amended.2.2.2.1 "123" "ab" "tok" "xy" (by decide)⟩

/-! # Claim C4 -/

/-- C4 counterexample: a stage-1 response with the success status and a
    `token` but no `countryAbbr`.  The missing-field error is raised, but
    only after `_sso_token` and `_user_id` were assigned, so the store is
    no longer fully empty, contradicting "every credential field is
    exactly as it was before the call". -/
theorem c4_counterexample :
    Src.async_do_account_auth
        ⟨⟨some "0", none, some "tok", some ⟨none, some "user"⟩⟩,
         ⟨none, none, none⟩, .ok ⟨none⟩, 0, ⟨none⟩, ⟨none, none, none⟩,
         fun _ => ⟨200, "ok"⟩⟩
        Src.emptyState =
      (.error (.tclApiAuthError "Authentication response incomplete."),
        ⟨some "tok", none, some "user", none, none, none⟩, none) ∧
    (⟨some "tok", none, some "user", none, none, none⟩ : Src.State) ≠
      Src.emptyState := by
  exact ⟨rfl, by decide⟩

/-- C4 (amended): a stage-1 response with a non-success status raises the
    typed authentication error and leaves the store exactly as it was;
    a success-status response missing (or with empty) required fields
    raises the typed error only after the three account fields have
    already been overwritten with the response values. -/
theorem c4_amended (env : Src.Env) (st : Src.State) :
    (env.login.errorcode ≠ some "0" →
      Src.async_do_account_auth env st =
        (.error (.tclApiAuthError ("Account authentication failed: " ++
            env.login.msg.getD "Unknown authentication error")), st, none)) ∧
    (env.login.errorcode = some "0" →
      (Src.truthy env.login.token &&
        Src.truthy (env.login.user.bind (fun u => u.countryAbbr)) &&
        Src.truthy (env.login.user.bind (fun u => u.username))) = false →
      Src.async_do_account_auth env st =
        (.error (.tclApiAuthError "Authentication response incomplete."),
          { st with
            sso_token := env.login.token,
            country_abbr := env.login.user.bind (fun u => u.countryAbbr),
            user_id := env.login.user.bind (fun u => u.username) },
          none)) := by
  constructor
  · intro h
    have hb : (env.login.errorcode != some "0") = true := by
      simpa [bne_iff_ne] using h
    simp [Src.async_do_account_auth, hb]
  · intro h1 h2
    simp [Src.async_do_account_auth, h1, h2]

/-- C4 witness: a concrete non-success stage-1 response leaves the empty
    store empty and raises the typed error. -/
theorem c4_witness :
    Src.async_do_account_auth
        ⟨⟨some "1", some "bad password", none, none⟩,
         ⟨none, none, none⟩, .ok ⟨none⟩, 0, ⟨none⟩, ⟨none, none, none⟩,
         fun _ => ⟨200, "ok"⟩⟩
        Src.emptyState =
      (.error (.tclApiAuthError "Account authentication failed: bad password"),
        Src.emptyState, none) :=
  (c4_amended
      ⟨⟨some "1", some "bad password", none, none⟩,
       ⟨none, none, none⟩, .ok ⟨none⟩, 0, ⟨none⟩, ⟨none, none, none⟩,
       fun _ => ⟨200, "ok"⟩⟩
      Src.emptyState).1 (by decide)

/-! # Claim C5 -/

/-- C5 counterexample: a stage-3 response whose `Credentials` object lacks
    `SessionToken`.  The typed incomplete-credentials error is raised, but
    `_aws_credentials` has already been overwritten with the incomplete
    record, so the cloud-credential fields do not remain as they were. -/
theorem c5_counterexample :
    Src.async_get_aws_credentials
        ⟨⟨none, none, none, none⟩, ⟨none, none, none⟩, .ok ⟨none⟩, 0,
         ⟨some ⟨some "NEWAK", some "NEWSK", none, none⟩⟩,
         ⟨none, none, none⟩, fun _ => ⟨200, "ok"⟩⟩
        ⟨some "sso", some "RO", some "uid", some "saas", some "cog",
         some ⟨some "OLDAK", some "OLDSK", some "OLDST", some (.num 0)⟩⟩ =
      (.error (.tclApiError "Incomplete AWS credentials received."),
        ⟨some "sso", some "RO", some "uid", some "saas", some "cog",
         some ⟨some "NEWAK", some "NEWSK", none, none⟩⟩,
        some HARDCODED_IDENTITY_ID) ∧
    some (⟨some "NEWAK", some "NEWSK", none, none⟩ : Tcl.AwsDict) ≠
      some (⟨some "OLDAK", some "OLDSK", some "OLDST",
        some (.num 0)⟩ : Tcl.AwsDict) := by
  exact ⟨rfl, by decide⟩

/-- C5 (amended): when the stage-3 response carries a `Credentials` object
    missing any of the three keys, the typed incomplete-credentials error
    is raised, but the store's cloud-credential record has by then been
    overwritten with the incomplete response. -/
theorem c5_amended (env : Src.Env) (st : Src.State) (creds : Tcl.AwsDict)
    (h1 : Src.truthy st.cognito_token = true)
    (h2 : env.cognito.credentials = some creds)
    (h3 : (creds.AccessKeyId.isSome && creds.SecretKey.isSome &&
        creds.SessionToken.isSome) = false) :
    Src.async_get_aws_credentials env st =
      (.error (.tclApiError "Incomplete AWS credentials received."),
        { st with aws_credentials := some creds },
        some HARDCODED_IDENTITY_ID) := by
  simp [Src.async_get_aws_credentials, h1, h2, h3]

/-- C5 witness: a concrete stage-3 response missing `SessionToken`
    overwrites the stored record and raises the typed error. -/
theorem c5_witness :
    Src.async_get_aws_credentials
        ⟨⟨none, none, none, none⟩, ⟨none, none, none⟩, .ok ⟨none⟩, 0,
         ⟨some ⟨some "AK", some "SK", none, none⟩⟩,
         ⟨none, none, none⟩, fun _ => ⟨200, "ok"⟩⟩
        ⟨none, none, none, none, some "cog", none⟩ =
      (.error (.tclApiError "Incomplete AWS credentials received."),
        ⟨none, none, none, none, some "cog",
         some ⟨some "AK", some "SK", none, none⟩⟩,
        some HARDCODED_IDENTITY_ID) :=
  c5_amended
    ⟨⟨none, none, none, none⟩, ⟨none, none, none⟩, .ok ⟨none⟩, 0,
     ⟨some ⟨some "AK", some "SK", none, none⟩⟩,
     ⟨none, none, none⟩, fun _ => ⟨200, "ok"⟩⟩
    ⟨none, none, none, none, some "cog", none⟩
    ⟨some "AK", some "SK", none, none⟩ (by decide) rfl (by decide)

/-! # Claim C6 -/

/-- C6 counterexample: a stub endpoint that returns 403 on the first
    attempt and success on any retry.  The claim demands exactly one
    automatic re-authentication and one retry ending in success; the code
    instead raises the auth-typed error after a single attempt, with no
    re-authentication and no retry. -/
theorem c6_counterexample :
    Src.async_control_device
        ⟨⟨some "0", none, some "tok", some ⟨some "RO", some "user"⟩⟩,
         ⟨some "0", none, some ⟨some "cog", some "saas", none⟩⟩,
         .ok ⟨some 1⟩, 0,
         ⟨some ⟨some "AK", some "SK", some "ST", none⟩⟩,
         ⟨some "0", none, some []⟩,
         fun i => if i == 0 then ⟨403, "forbidden"⟩ else ⟨200, "accepted"⟩⟩
        ⟨none, none, none, none, none,
         some ⟨some "AK", some "SK", some "ST", some (.num 0)⟩⟩ =
      (.error (.tclApiAuthError "Device control auth failed: forbidden"),
        ⟨none, none, none, none, none,
         some ⟨some "AK", some "SK", some "ST", some (.num 0)⟩⟩,
        1, false) := by
  rfl

/-- C6 (amended): with a complete stored credential record, a device
    control call makes exactly one HTTP attempt and performs no automatic
    re-authentication: HTTP 401/403 raises the auth-typed error carrying
    the response body (no retry), any other 4xx/5xx raises the generic
    API error carrying the vendor body, and a success status returns the
    response body. -/
theorem c6_amended (env : Src.Env) (st : Src.State) (d : Tcl.AwsDict)
    (h1 : st.aws_credentials = some d)
    (h2 : d.AccessKeyId.isSome = true) (h3 : d.SecretKey.isSome = true)
    (h4 : d.SessionToken.isSome = true) :
    ((env.control 0).status = 401 ∨ (env.control 0).status = 403 →
      Src.async_control_device env st =
        (.error (.tclApiAuthError ("Device control auth failed: " ++
            (env.control 0).body)), st, 1, false)) ∧
    (400 ≤ (env.control 0).status → (env.control 0).status ≠ 401 →
      (env.control 0).status ≠ 403 →
      Src.async_control_device env st =
        (.error (.tclApiError ("Device control API error: " ++
            (env.control 0).body)), st, 1, false)) ∧
    ((env.control 0).status < 400 →
      Src.async_control_device env st =
        (.ok (env.control 0).body, st, 1, false)) := by
  obtain ⟨ak, hak⟩ := Option.isSome_iff_exists.mp h2
  obtain ⟨sk, hsk⟩ := Option.isSome_iff_exists.mp h3
  obtain ⟨stk, hstk⟩ := Option.isSome_iff_exists.mp h4
  refine ⟨?_, ?_, ?_⟩
  · rintro (h | h) <;>
      simp [Src.async_control_device, Tcl.AwsDict.isEmptyDict,
        h1, hak, hsk, hstk, h]
  · intro h h401 h403
    simp [Src.async_control_device, Tcl.AwsDict.isEmptyDict,
      h1, hak, hsk, hstk, h, h401, h403]
  · intro h
    have h401 : (env.control 0).status ≠ 401 := by omega
    have h403 : (env.control 0).status ≠ 403 := by omega
    have hge : ¬ 400 ≤ (env.control 0).status := by omega
    simp [Src.async_control_device, Tcl.AwsDict.isEmptyDict,
      h1, hak, hsk, hstk, h401, h403, hge]

/-- C6 witness: a concrete 401 response yields the auth-typed error after
    one attempt and no re-authentication. -/
theorem c6_witness :
    Src.async_control_device
        ⟨⟨none, none, none, none⟩, ⟨none, none, none⟩, .ok ⟨none⟩, 0, ⟨none⟩,
         ⟨none, none, none⟩, fun _ => ⟨401, "denied"⟩⟩
        ⟨none, none, none, none, none,
         some ⟨some "AK", some "SK", some "ST", none⟩⟩ =
      (.error (.tclApiAuthError "Device control auth failed: denied"),
        ⟨none, none, none, none, none,
         some ⟨some "AK", some "SK", some "ST", none⟩⟩,
        1, false) :=
  (c6_amended
      ⟨⟨none, none, none, none⟩, ⟨none, none, none⟩, .ok ⟨none⟩, 0, ⟨none⟩,
       ⟨none, none, none⟩, fun _ => ⟨401, "denied"⟩⟩
      ⟨none, none, none, none, none,
       some ⟨some "AK", some "SK", some "ST", none⟩⟩
      ⟨some "AK", some "SK", some "ST", none⟩ rfl rfl rfl rfl).1 (Or.inl rfl)

/-! # Claim C7 -/

/-- C7: the expiry parser does accept both the ISO-8601 UTC string and the
    numeric UNIX timestamp encoding of the same instant, and maps every
    unparseable value to `datetime.min`; but the subsequent freshness
    check then computes `datetime.min - timedelta(minutes=5)`, which
    overflows below `datetime.min`, so the validation raises an uncaught
    `OverflowError` instead of treating the credentials as expired and
    re-authenticating.  (The code's intent — fail closed — matches the
    claim; the overflow is the code bug.) -/
theorem c7_expiry_overflow :
    Tcl._parse_expiration (.str "2030-01-05T06:07:08Z") = 64029420428 ∧
    Tcl._parse_expiration (.num 1893823628) = 64029420428 ∧
    Tcl._parse_expiration (.str "not-a-date") = 0 ∧
    Tcl._parse_expiration .other = 0 ∧
    Tcl._validate_credentials Tcl.envOK
        ⟨some "tok", some ⟨some "AK", some "SK", some "ST",
          some (.str "not-a-date")⟩⟩ 1000 =
      (.error .overflowError,
        ⟨some "tok", some ⟨some "AK", some "SK", some "ST",
          some (.str "not-a-date")⟩⟩, []) := by
  refine ⟨by decide, by decide, by decide, rfl, by decide⟩

/-! # Claim C8 -/

/-- C8 counterexample: a stage-2 response that does supply a `cognitoId`
    (here "stage2-identity"); the stage-3 request of `src/api.py`
    nevertheless submits the hardcoded identity id, not the stage-2
    value, refuting "the IdentityId submitted is the value returned by
    the stage-2 token refresh whenever stage 2 supplied one". -/
theorem c8_counterexample :
    (Src.async_do_account_auth
        ⟨⟨some "0", none, some "tok", some ⟨some "RO", some "user"⟩⟩,
         ⟨some "0", none,
          some ⟨some "cogTok", some "saas", some "stage2-identity"⟩⟩,
         .ok ⟨some 100⟩, 0,
         ⟨some ⟨some "AK", some "SK", some "ST", none⟩⟩,
         ⟨some "0", none, some []⟩, fun _ => ⟨200, "ok"⟩⟩
        Src.emptyState).2.2 = some HARDCODED_IDENTITY_ID ∧
    HARDCODED_IDENTITY_ID ≠ "stage2-identity" := by
  exact ⟨rfl, by decide⟩

/-- C8 (amended): the `src/api.py` pipeline always submits the hardcoded
    identity id to stage 3, ignoring any stage-2 `cognitoId`; the
    `custom_components/tcl` pipeline always submits the stage-2
    `cognitoId` when present and, when stage 2 omits it, never reaches
    stage 3 at all (it raises `KeyError` instead of falling back to a
    configured default). -/
theorem c8_amended :
    (∀ (env : Src.Env) (st : Src.State),
      (Src.async_get_aws_credentials env st).2.2 = none ∨
      (Src.async_get_aws_credentials env st).2.2 =
        some HARDCODED_IDENTITY_ID) ∧
    (∀ (env : Tcl.Env) (st : Tcl.State) (rd : Tcl.RefreshData) (cid : String),
      env.refresh.data = some rd → rd.cognitoId = some cid →
      ∀ c, Tcl.NetCall.cognitoCall c ∈ (Tcl.authenticate env st).2.2 →
        c = cid) ∧
    (∀ (env : Tcl.Env) (st : Tcl.State) (rd : Tcl.RefreshData),
      env.refresh.data = some rd → rd.cognitoId = none →
      ∀ c, Tcl.NetCall.cognitoCall c ∉ (Tcl.authenticate env st).2.2) := by
  refine ⟨?_, ?_, ?_⟩
  · intro env st
    unfold Src.async_get_aws_credentials
    repeat' split
    all_goals simp
  · intro env st rd cid h1 h2 c hc
    unfold Tcl.authenticate at hc
    repeat' split at hc
    all_goals simp_all
  · intro env st rd h1 h2 c hc
    unfold Tcl.authenticate at hc
    repeat' split at hc
    all_goals simp_all

/-- C8 witness: on the all-success tcl environment, whose stage-2 data
    carries `cognitoId = "cid"`, the only cognito call in the trace
    submits exactly "cid". -/
theorem c8_witness : ("cid" : String) = "cid" :=
  c8_amended.2.1 Tcl.envOK ⟨none, none⟩ ⟨some "saas", some "cog", some "cid"⟩
    "cid" rfl rfl "cid" (by decide)

/-! # Claim C9 -/

/-- C9: with the SaaS token and country code present, the device-listing
    call returns the server-provided `data` list unchanged (so an empty
    array gives an empty list and no error), and a response whose vendor
    error code differs from the success sentinel "0" raises the typed
    directory error carrying the vendor message. -/
theorem c9_list_devices (env : Src.Env) (st : Src.State) (ts nc : String)
    (h1 : Src.truthy st.saas_token = true)
    (h2 : Src.truthy st.country_abbr = true) :
    (env.things.errorcode = some "0" →
      Src.async_get_devices env st ts nc =
        (.ok (env.things.data.getD []), st)) ∧
    (∀ c, env.things.errorcode = some c → c ≠ "0" →
      Src.async_get_devices env st ts nc =
        (.error (.tclApiError ("Failed to get devices: " ++
            env.things.msg.getD "Unknown error fetching devices")), st)) := by
  constructor
  · intro h
    simp [Src.async_get_devices, h1, h2, h]
  · intro c h hc
    simp [Src.async_get_devices, h1, h2, h, hc]

/-- C9 witness: a stub returning success status and `data = []` yields
    the empty list, not an error. -/
theorem c9_witness :
    Src.async_get_devices
        ⟨⟨none, none, none, none⟩, ⟨none, none, none⟩, .ok ⟨none⟩, 0, ⟨none⟩,
         ⟨some "0", none, some []⟩, fun _ => ⟨200, "ok"⟩⟩
        ⟨none, some "RO", none, some "saas", none, none⟩ "111" "nonce" =
      (.ok [], ⟨none, some "RO", none, some "saas", none, none⟩) :=
  (c9_list_devices
      ⟨⟨none, none, none, none⟩, ⟨none, none, none⟩, .ok ⟨none⟩, 0, ⟨none⟩,
       ⟨some "0", none, some []⟩, fun _ => ⟨200, "ok"⟩⟩
      ⟨none, some "RO", none, some "saas", none, none⟩ "111" "nonce"
      (by decide) (by decide)).1 rfl

/-! # Claim C10 -/

/-- C10: in every `TCLAPI` state whose account access token is set and
    truthy (non-empty, so Python's `if not self._access_token:` does not
    fire) but with no AWS credential record, `get_devices` passes
    validation untouched (no re-authentication, empty call trace) and
    then raises a raw `TypeError` from subscripting the absent record —
    not a typed `APIAuthError`/`APIConnectionError`.  The second conjunct
    shows such a state is reachable: an authentication whose stage-2
    response lacks `cognitoId` aborts after stage 2 with a non-empty
    access token already set and no credential record. -/
theorem c10_get_devices_typeerror :
    (∀ (env : Tcl.Env) (now : Nat) (tok ts nc : String), tok ≠ "" →
      Tcl.get_devices env ⟨some tok, none⟩ now ts nc =
        (.error .typeError, ⟨some tok, none⟩, [])) ∧
    Tcl.authenticate
        ⟨⟨200, some "t", some "u"⟩,
         ⟨200, some ⟨some "saas", some "cog", none⟩⟩,
         ⟨200, some ⟨some "AK", some "SK", some "ST", some (.num 0)⟩⟩,
         ⟨200, some []⟩, ⟨200, some []⟩, ⟨200⟩⟩
        ⟨none, none⟩ =
      (.error (.keyError "cognitoId"), ⟨some "saas", none⟩,
        [.loginCall, .refreshCall]) := by
  constructor
  · intro env now tok ts nc htok
    have ht : Tcl.truthy (some tok) = true := by simp [Tcl.truthy, htok]
    simp [Tcl.get_devices, Tcl._validate_credentials, ht]
  · rfl

/-- C10 witness: the concrete token-set, credentials-absent state yields
    the raw `TypeError` with an empty call trace. -/
theorem c10_witness :
    Tcl.get_devices Tcl.envOK ⟨some "tok", none⟩ 1000 "111" "n" =
      (.error .typeError, ⟨some "tok", none⟩, []) :=
  c10_get_devices_typeerror.1 Tcl.envOK 1000 "tok" "111" "n" (by decide)
